import Mathlib

/-!
Verification of the heart-trooper-shooter game core against its source.

The definitions below are shallow embeddings of the TypeScript source:
JavaScript numbers are modelled exactly as rationals (all constants in the
relevant code are decimal literals, so the arithmetic the claims depend on
is exact), `Math.floor` on a non-negative quotient becomes natural-number
division, arrays become lists, and the pieces of mutable component state
that the progression logic reads and writes become fields of explicit
state records.  React `useState`/`useRef` semantics are modelled by
distinguishing *live* ref-backed fields (always current) from *captured*
snapshot values (frozen into a callback closure when it was created);
captured values are passed to the embedded functions as explicit
parameters.
-/

namespace HeartTrooper

/-- Difficulty configuration, one field per property of the object returned
by `getDifficultyConfig` in `Game.tsx` (lines 71-98). -/
structure DifficultyConfig where
  baseEnemiesPerWave : ℕ
  maxWaves : ℕ
  waveDelay : ℚ
  enemyHealthMultiplier : ℕ
  enemySpeedMultiplier : ℚ
  shooterProbability : ℚ
  tankProbability : ℚ
  fastProbability : ℚ
  bulletSpeedMultiplier : ℚ
  spreadShotLevel : ℕ
  fireRateMultiplier : ℚ
  powerUpChance : ℚ
  divingEnemies : Bool
  enemiesShootAngled : Bool
  formationComplexity : ℕ
deriving DecidableEq

/-- Embedding of `getDifficultyConfig` (`Game.tsx` 71-98).
`Math.floor(level * 1.2)` is the natural division `6 * level / 5`,
`Math.floor(level / 1.5)` is `2 * level / 3`, and the remaining floors are
plain natural divisions; all other arithmetic is exact rational
arithmetic on the source's decimal constants. -/
def getDifficultyConfig (level : ℕ) : DifficultyConfig where
  baseEnemiesPerWave := if level = 1 then 5 else min 15 (5 + 6 * level / 5)
  maxWaves := min 6 (1 + 2 * level / 3)
  waveDelay := max 2000 (5000 - ((level : ℚ) - 1) * 300)
  enemyHealthMultiplier := min 3 (1 + level / 3)
  enemySpeedMultiplier := 1 + ((level : ℚ) - 1) * (8 / 100)
  shooterProbability :=
    min (4 / 10) (if level = 1 then 0 else 5 / 100 + ((level : ℚ) - 1) * (5 / 100))
  tankProbability :=
    min (3 / 10) (if level ≤ 2 then 0 else 5 / 100 + ((level : ℚ) - 2) * (5 / 100))
  fastProbability :=
    min (3 / 10) (if level = 1 then 0 else 5 / 100 + ((level : ℚ) - 1) * (5 / 100))
  bulletSpeedMultiplier := 1 + ((level : ℚ) - 1) * (1 / 10)
  spreadShotLevel := level / 3
  fireRateMultiplier := 1 + ((level : ℚ) - 1) * (1 / 10)
  powerUpChance :=
    if level = 1 then 3 / 10 else max (1 / 10) (2 / 10 - ((level : ℚ) - 2) * (2 / 100))
  divingEnemies := decide (2 < level)
  enemiesShootAngled := decide (3 < level)
  formationComplexity := min 5 ((level - 1) / 2)

/-- Enemy variants, from the `EnemyType` enum in `Enemy.ts` (lines 10-15). -/
inductive EnemyType
  | basic
  | shooter
  | tank
  | fast
deriving DecidableEq

/-- Enemy state, the fields of the `Enemy` class in `Enemy.ts` that the
combat and spawning logic reads or writes (position, bounding box, health,
per-type stats, the tank size tracker and the dive flag); fields only used
for drawing or frame-by-frame motion (direction, timers, pulse phase) are
omitted because no claim mentions them. -/
structure Enemy where
  x : ℚ
  y : ℚ
  width : ℚ
  height : ℚ
  speed : ℚ
  verticalSpeed : ℚ
  health : ℚ
  shootProbability : ℚ
  dropPowerUpChance : ℚ
  type : EnemyType
  initialSize : ℚ
  diveAtPlayer : Bool
deriving DecidableEq

/-- Embedding of the `Enemy` constructor together with its private
`setupType` (`Enemy.ts` 96-152): class-initializer defaults (width/height
40, health 1, base speed 1, drop chance 0.2), the per-type overrides of
`setupType`, and the tank special-casing in the constructor (size 60×60,
`initialSize` 1).  The constructor's `y - 100` offset is applied to the
stored `y`. -/
def mkEnemy (x y : ℚ) (type : EnemyType) : Enemy :=
  let base : Enemy :=
    { x := x, y := y - 100, width := 40, height := 40, speed := 1, verticalSpeed := 0,
      health := 1, shootProbability := 3 / 10, dropPowerUpChance := 2 / 10,
      type := type, initialSize := 1, diveAtPlayer := false }
  match type with
  | EnemyType.shooter =>
      { base with health := 1, shootProbability := 4 / 10, verticalSpeed := 1 / 2 }
  | EnemyType.tank =>
      { base with health := 3, shootProbability := 15 / 100, speed := 1 / 2,
                  verticalSpeed := 3 / 10, width := 60, height := 60, initialSize := 1 }
  | EnemyType.fast =>
      { base with health := 1, shootProbability := 2 / 10, speed := 2, verticalSpeed := 1 }
  | EnemyType.basic =>
      { base with health := 1, shootProbability := 1 / 10, verticalSpeed := 7 / 10 }

/-- Embedding of `Enemy.hit` (`Enemy.ts` 561-570): decrement health, shrink
`initialSize` by 0.2 for tanks, and report whether the enemy is destroyed
(`health <= 0`). -/
def Enemy.hit (e : Enemy) : Enemy × Bool :=
  let e1 := { e with health := e.health - 1 }
  let e2 := if e1.type = EnemyType.tank
    then { e1 with initialSize := e1.initialSize - 2 / 10 }
    else e1
  (e2, decide (e2.health ≤ 0))

/-- State after `n` calls to `Enemy.hit`. -/
def Enemy.hitN (e : Enemy) : ℕ → Enemy
  | 0 => e
  | n + 1 => (e.hitN n).hit.1

/-- Boolean result of hit number `n + 1` (the hit performed after `n`
previous hits). -/
def Enemy.hitResult (e : Enemy) (n : ℕ) : Bool :=
  ((e.hitN n).hit).2

/-- Size multiplier used when drawing a tank (`Enemy.ts` 244):
`0.7 + (initialSize * (health / 3)) * 0.5`. -/
def Enemy.tankSizeMultiplier (e : Enemy) : ℚ :=
  7 / 10 + (e.initialSize * (e.health / 3)) * (1 / 2)

/-- The enemy-type roll in `spawnEnemy` (`Game.tsx` 428-438): cumulative
probability thresholds over one uniform random draw `r`, falling through
to `basic`. -/
def chooseEnemyType (cfg : DifficultyConfig) (r : ℚ) : EnemyType :=
  if r < cfg.shooterProbability then EnemyType.shooter
  else if r < cfg.shooterProbability + cfg.tankProbability then EnemyType.tank
  else if r < cfg.shooterProbability + cfg.tankProbability + cfg.fastProbability then
    EnemyType.fast
  else EnemyType.basic

/-- Embedding of `spawnEnemy` (`Game.tsx` 426-459): roll the type from
`rType`, construct the enemy at the linearly interpolated position, then
apply the level multipliers and the drop chance, and enable diving when
the config allows it and the dive roll `rDive` is below 0.2.  The two
`Math.random()` draws are passed in as `rType` and `rDive` (when
`divingEnemies` is false the source never draws `rDive`; passing it
unused is equivalent). -/
def spawnEnemy (cfg : DifficultyConfig) (col row : ℚ) (totalEnemies : ℕ)
    (rType rDive : ℚ) : Enemy :=
  let type := chooseEnemyType cfg rType
  let e := mkEnemy (80 + col * (800 - 160) / ((totalEnemies : ℚ) - 1)) (60 + row * 60) type
  { e with
    health := e.health * (cfg.enemyHealthMultiplier : ℚ),
    speed := e.speed * cfg.enemySpeedMultiplier,
    shootProbability := e.shootProbability * cfg.fireRateMultiplier,
    dropPowerUpChance := cfg.powerUpChance,
    diveAtPlayer := cfg.divingEnemies && decide (rDive < 2 / 10) }

end HeartTrooper

namespace HeartTrooper

/-- C3 counterexample: the claim says every field of `getDifficultyConfig`
is monotonically non-decreasing in the level, but `waveDelay` strictly
decreases from level 1 (5000) to level 2 (4700). -/
theorem c3_waveDelay_not_monotone_counterexample :
    (getDifficultyConfig 2).waveDelay < (getDifficultyConfig 1).waveDelay := by
  norm_num [getDifficultyConfig]

/-- C3 amended: for every level L ≥ 1, the difficulty-increasing fields of
`getDifficultyConfig` are monotonically non-decreasing in L and clamped to
their documented maxima (in particular
`enemyHealthMultiplier L ≤ enemyHealthMultiplier (L+1) ≤ 3`), while
`waveDelay` and `powerUpChance` are monotonically NON-INCREASING in L
(clamped to minima 2000 and 1/10 respectively). -/
theorem c3_difficulty_monotone_amended (L : ℕ) :
    (getDifficultyConfig (L + 1)).baseEnemiesPerWave
      ≤ (getDifficultyConfig (L + 2)).baseEnemiesPerWave
    ∧ (getDifficultyConfig (L + 1)).baseEnemiesPerWave ≤ 15
    ∧ (getDifficultyConfig (L + 1)).maxWaves ≤ (getDifficultyConfig (L + 2)).maxWaves
    ∧ (getDifficultyConfig (L + 1)).maxWaves ≤ 6
    ∧ (getDifficultyConfig (L + 1)).enemyHealthMultiplier
      ≤ (getDifficultyConfig (L + 2)).enemyHealthMultiplier
    ∧ (getDifficultyConfig (L + 2)).enemyHealthMultiplier ≤ 3
    ∧ (getDifficultyConfig (L + 1)).enemySpeedMultiplier
      ≤ (getDifficultyConfig (L + 2)).enemySpeedMultiplier
    ∧ (getDifficultyConfig (L + 1)).shooterProbability
      ≤ (getDifficultyConfig (L + 2)).shooterProbability
    ∧ (getDifficultyConfig (L + 1)).shooterProbability ≤ 4 / 10
    ∧ (getDifficultyConfig (L + 1)).tankProbability
      ≤ (getDifficultyConfig (L + 2)).tankProbability
    ∧ (getDifficultyConfig (L + 1)).tankProbability ≤ 3 / 10
    ∧ (getDifficultyConfig (L + 1)).fastProbability
      ≤ (getDifficultyConfig (L + 2)).fastProbability
    ∧ (getDifficultyConfig (L + 1)).fastProbability ≤ 3 / 10
    ∧ (getDifficultyConfig (L + 1)).bulletSpeedMultiplier
      ≤ (getDifficultyConfig (L + 2)).bulletSpeedMultiplier
    ∧ (getDifficultyConfig (L + 1)).spreadShotLevel
      ≤ (getDifficultyConfig (L + 2)).spreadShotLevel
    ∧ (getDifficultyConfig (L + 1)).fireRateMultiplier
      ≤ (getDifficultyConfig (L + 2)).fireRateMultiplier
    ∧ (getDifficultyConfig (L + 1)).formationComplexity
      ≤ (getDifficultyConfig (L + 2)).formationComplexity
    ∧ (getDifficultyConfig (L + 1)).formationComplexity ≤ 5
    ∧ ((getDifficultyConfig (L + 1)).divingEnemies = true →
        (getDifficultyConfig (L + 2)).divingEnemies = true)
    ∧ ((getDifficultyConfig (L + 1)).enemiesShootAngled = true →
        (getDifficultyConfig (L + 2)).enemiesShootAngled = true)
    ∧ (getDifficultyConfig (L + 2)).waveDelay ≤ (getDifficultyConfig (L + 1)).waveDelay
    ∧ 2000 ≤ (getDifficultyConfig (L + 1)).waveDelay
    ∧ (getDifficultyConfig (L + 2)).powerUpChance
      ≤ (getDifficultyConfig (L + 1)).powerUpChance
    ∧ 1 / 10 ≤ (getDifficultyConfig (L + 1)).powerUpChance := by
  simp only [getDifficultyConfig]
  refine ⟨?_, ?_, ?_, ?_, ?_, ?_, ?_, ?_, ?_, ?_, ?_, ?_, ?_, ?_, ?_, ?_, ?_, ?_, ?_, ?_,
    ?_, ?_, ?_, ?_⟩
  · split <;> split <;> omega
  · split <;> omega
  · omega
  · omega
  · omega
  · omega
  · push_cast; linarith
  · rcases Nat.eq_zero_or_pos L with h | h
    · subst h; norm_num
    · have h1 : ¬ (L + 1 = 1) := by omega
      have h2 : ¬ (L + 2 = 1) := by omega
      rw [if_neg h1, if_neg h2]
      apply min_le_min le_rfl
      push_cast; linarith
  · exact min_le_left _ _
  · rcases le_or_lt L 1 with h | h
    · have h1 : L + 1 ≤ 2 := by omega
      rw [if_pos h1, show min ((3 : ℚ) / 10) 0 = 0 by norm_num]
      refine le_min (by norm_num) ?_
      split
      · norm_num
      · push_cast
        nlinarith [(Nat.cast_nonneg L : (0 : ℚ) ≤ (L : ℚ))]
    · have h1 : ¬ (L + 1 ≤ 2) := by omega
      have h2 : ¬ (L + 2 ≤ 2) := by omega
      rw [if_neg h1, if_neg h2]
      apply min_le_min le_rfl
      push_cast; linarith
  · exact min_le_left _ _
  · rcases Nat.eq_zero_or_pos L with h | h
    · subst h; norm_num
    · have h1 : ¬ (L + 1 = 1) := by omega
      have h2 : ¬ (L + 2 = 1) := by omega
      rw [if_neg h1, if_neg h2]
      apply min_le_min le_rfl
      push_cast; linarith
  · exact min_le_left _ _
  · push_cast; linarith
  · omega
  · push_cast; linarith
  · omega
  · omega
  · intro h
    simp only [decide_eq_true_eq] at h ⊢
    omega
  · intro h
    simp only [decide_eq_true_eq] at h ⊢
    omega
  · apply max_le_max le_rfl
    push_cast; linarith
  · exact le_max_left _ _
  · rcases Nat.eq_zero_or_pos L with h | h
    · subst h; norm_num
    · have h1 : ¬ (L + 1 = 1) := by omega
      have h2 : ¬ (L + 2 = 1) := by omega
      rw [if_neg h1, if_neg h2]
      apply max_le_max le_rfl
      push_cast; linarith
  · split
    · norm_num
    · exact le_max_left _ _

theorem Enemy.hit_fst_health (e : Enemy) : e.hit.1.health = e.health - 1 := by
  simp only [Enemy.hit]
  split <;> rfl

theorem Enemy.hit_fst_type (e : Enemy) : e.hit.1.type = e.type := by
  simp only [Enemy.hit]
  split <;> rfl

theorem Enemy.hit_snd (e : Enemy) : e.hit.2 = decide (e.health - 1 ≤ 0) := by
  simp only [Enemy.hit]
  split <;> rfl

theorem Enemy.hit_fst_initialSize_tank (e : Enemy) (h : e.type = EnemyType.tank) :
    e.hit.1.initialSize = e.initialSize - 2 / 10 := by
  simp only [Enemy.hit]
  rw [if_pos]
  exact h

theorem Enemy.hitN_health (e : Enemy) (n : ℕ) : (e.hitN n).health = e.health - n := by
  induction n with
  | zero => simp [Enemy.hitN]
  | succ n ih =>
      rw [Enemy.hitN, Enemy.hit_fst_health, ih]
      push_cast
      ring

theorem Enemy.hitN_type (e : Enemy) (n : ℕ) : (e.hitN n).type = e.type := by
  induction n with
  | zero => rfl
  | succ n ih => rw [Enemy.hitN, Enemy.hit_fst_type, ih]

theorem Enemy.hitN_initialSize_tank (e : Enemy) (h : e.type = EnemyType.tank) (n : ℕ) :
    (e.hitN n).initialSize = e.initialSize - n * (2 / 10) := by
  induction n with
  | zero => simp [Enemy.hitN]
  | succ n ih =>
      rw [Enemy.hitN, Enemy.hit_fst_initialSize_tank _ ((e.hitN_type n).trans h), ih]
      push_cast
      ring

theorem Enemy.hitResult_eq (e : Enemy) (n : ℕ) :
    e.hitResult n = decide (e.health - ((n : ℚ) + 1) ≤ 0) := by
  rw [Enemy.hitResult, Enemy.hit_snd, Enemy.hitN_health]
  have h : e.health - (n : ℚ) - 1 = e.health - ((n : ℚ) + 1) := by ring
  rw [h]

/-- C4 counterexample: a Tank enemy actually spawned by the game first
appears at level 3, where `spawnEnemy` multiplies its base health 3 by
`enemyHealthMultiplier 3 = 2`; its third call to `hit()` therefore
returns `false`, refuting "exactly 3 calls to hit() are required". -/
theorem c4_spawned_tank_three_hits_counterexample :
    (spawnEnemy (getDifficultyConfig 3) 0 0 5 (2 / 10) 1).type = EnemyType.tank
    ∧ (spawnEnemy (getDifficultyConfig 3) 0 0 5 (2 / 10) 1).health = 6
    ∧ (spawnEnemy (getDifficultyConfig 3) 0 0 5 (2 / 10) 1).hitResult 2 = false := by
  have hshoot : (getDifficultyConfig 3).shooterProbability = 15 / 100 := by
    norm_num [getDifficultyConfig, min_def]
  have htank : (getDifficultyConfig 3).tankProbability = 10 / 100 := by
    norm_num [getDifficultyConfig, min_def]
  have hmult : (getDifficultyConfig 3).enemyHealthMultiplier = 2 := by
    norm_num [getDifficultyConfig]
  have hc : chooseEnemyType (getDifficultyConfig 3) (2 / 10) = EnemyType.tank := by
    unfold chooseEnemyType
    rw [hshoot, htank, if_neg (by norm_num), if_pos (by norm_num)]
  refine ⟨?_, ?_, ?_⟩
  · simp only [spawnEnemy, hc, mkEnemy]
  · simp only [spawnEnemy, hc, mkEnemy, hmult]
    norm_num
  · rw [Enemy.hitResult_eq]
    simp only [spawnEnemy, hc, mkEnemy, hmult]
    norm_num

/-- C4 amended: a Tank whose spawned health is `3 * (m + 1)` (the base 3
times the level's health multiplier, which is at least 2 at every level
where tanks can spawn) is destroyed by exactly `3 * (m + 1)` calls to
`hit()` — hit number `j + 1` returns true iff `3 * (m + 1) ≤ j + 1` — and
every hit shrinks `initialSize` by exactly 0.2.  For the unmultiplied
Tank as constructed (health 3) the original statement holds: the first
two hits return false, the third returns true, and the rendered size
multiplier strictly decreases over the surviving states. -/
theorem c4_tank_hits_amended (m j : ℕ) (e : Enemy)
    (htype : e.type = EnemyType.tank) (hh : e.health = 3 * (m + 1)) :
    (e.hitResult j = true ↔ 3 * (m + 1) ≤ j + 1)
    ∧ (e.hitN (j + 1)).initialSize = (e.hitN j).initialSize - 2 / 10
    ∧ (mkEnemy 0 0 EnemyType.tank).hitResult 0 = false
    ∧ (mkEnemy 0 0 EnemyType.tank).hitResult 1 = false
    ∧ (mkEnemy 0 0 EnemyType.tank).hitResult 2 = true
    ∧ ((mkEnemy 0 0 EnemyType.tank).hitN 1).tankSizeMultiplier
        < (mkEnemy 0 0 EnemyType.tank).tankSizeMultiplier
    ∧ ((mkEnemy 0 0 EnemyType.tank).hitN 2).tankSizeMultiplier
        < ((mkEnemy 0 0 EnemyType.tank).hitN 1).tankSizeMultiplier := by
  refine ⟨?_, ?_, ?_, ?_, ?_, ?_, ?_⟩
  · rw [Enemy.hitResult_eq, hh, decide_eq_true_eq]
    constructor <;> intro h
    · have h2 : ((3 * (m + 1) : ℕ) : ℚ) ≤ ((j + 1 : ℕ) : ℚ) := by push_cast; linarith
      exact_mod_cast h2
    · have h2 : ((3 * (m + 1) : ℕ) : ℚ) ≤ ((j + 1 : ℕ) : ℚ) := by exact_mod_cast h
      push_cast at h2
      linarith
  · rw [Enemy.hitN, Enemy.hit_fst_initialSize_tank _ ((e.hitN_type j).trans htype)]
  · rw [Enemy.hitResult_eq]
    norm_num [mkEnemy]
  · rw [Enemy.hitResult_eq]
    norm_num [mkEnemy]
  · rw [Enemy.hitResult_eq]
    norm_num [mkEnemy]
  · norm_num [Enemy.hitN, Enemy.hit, mkEnemy, Enemy.tankSizeMultiplier]
  · norm_num [Enemy.hitN, Enemy.hit, mkEnemy, Enemy.tankSizeMultiplier]

/-- C4 witness. -/
theorem c4_tank_hits_amended_witness :
    ((mkEnemy 0 0 EnemyType.tank).hitResult 2 = true ↔ 3 * (0 + 1) ≤ 2 + 1) :=
  (c4_tank_hits_amended 0 2 (mkEnemy 0 0 EnemyType.tank) (by rfl)
    (by norm_num [mkEnemy])).1

/-- Axis-aligned rectangle: the `x`, `y`, `width`, `height` fields shared
by every `GameObject` in the source. -/
structure Rect where
  x : ℚ
  y : ℚ
  width : ℚ
  height : ℚ
deriving DecidableEq

/-- Embedding of `Bullet.checkCollision` (`Bullet.ts` 167-172): both
rectangles are treated as corner-anchored (`x`,`y` is the top-left
corner), with strict inequalities on all four comparisons. -/
def bulletCheckCollision (a other : Rect) : Bool :=
  decide (a.x < other.x + other.width) &&
  decide (a.x + a.width > other.x) &&
  decide (a.y < other.y + other.height) &&
  decide (a.y + a.height > other.y)

/-- Embedding of `PowerUp.checkCollision` (`PowerUp.ts` 781-788): the
power-up itself is treated as center-anchored (its rectangle spans
`x ± width/2`, `y ± height/2`) while `other` is corner-anchored; strict
inequalities on all four comparisons. -/
def powerUpCheckCollision (p other : Rect) : Bool :=
  decide (p.x - p.width / 2 < other.x + other.width) &&
  decide (p.x + p.width / 2 > other.x) &&
  decide (p.y - p.height / 2 < other.y + other.height) &&
  decide (p.y + p.height / 2 > other.y)

/-- C5 counterexample: collision checks are not symmetric across classes.
A power-up at (20,20) of size 30×30 and a bullet-sized rectangle at (0,0)
of size 12×12: `PowerUp.checkCollision` (center-anchored power-up)
reports a collision, while `Bullet.checkCollision` on the same pair
(both corner-anchored) reports none. -/
theorem c5_collision_symmetry_counterexample :
    powerUpCheckCollision ⟨20, 20, 30, 30⟩ ⟨0, 0, 12, 12⟩ = true
    ∧ bulletCheckCollision ⟨0, 0, 12, 12⟩ ⟨20, 20, 30, 30⟩ = false := by
  constructor <;> norm_num [powerUpCheckCollision, bulletCheckCollision]

/-- C5 amended: `Bullet.checkCollision` is symmetric on any two
corner-anchored rectangles, and both collision tests use strict
inequalities, so rectangles that merely touch on an edge (zero-area
overlap, in each test's own anchoring convention) never report a
collision; but symmetry fails across classes because
`PowerUp.checkCollision` anchors the power-up at its center (see the
counterexample). -/
theorem c5_collision_amended (a b p o : Rect) :
    bulletCheckCollision a b = bulletCheckCollision b a
    ∧ (a.x + a.width = b.x → bulletCheckCollision a b = false)
    ∧ (b.x + b.width = a.x → bulletCheckCollision a b = false)
    ∧ (a.y + a.height = b.y → bulletCheckCollision a b = false)
    ∧ (b.y + b.height = a.y → bulletCheckCollision a b = false)
    ∧ (p.x + p.width / 2 = o.x → powerUpCheckCollision p o = false)
    ∧ (o.x + o.width = p.x - p.width / 2 → powerUpCheckCollision p o = false)
    ∧ (p.y + p.height / 2 = o.y → powerUpCheckCollision p o = false)
    ∧ (o.y + o.height = p.y - p.height / 2 → powerUpCheckCollision p o = false) := by
  refine ⟨?_, ?_, ?_, ?_, ?_, ?_, ?_, ?_, ?_⟩
  · rw [Bool.eq_iff_iff]
    simp only [bulletCheckCollision, Bool.and_eq_true, decide_eq_true_eq]
    constructor
    · rintro ⟨⟨⟨h1, h2⟩, h3⟩, h4⟩
      exact ⟨⟨⟨h2, h1⟩, h4⟩, h3⟩
    · rintro ⟨⟨⟨h1, h2⟩, h3⟩, h4⟩
      exact ⟨⟨⟨h2, h1⟩, h4⟩, h3⟩
  · intro h
    simp [bulletCheckCollision, h]
  · intro h
    simp [bulletCheckCollision, ← h]
  · intro h
    simp [bulletCheckCollision, h]
  · intro h
    simp [bulletCheckCollision, ← h]
  · intro h
    simp [powerUpCheckCollision, h]
  · intro h
    simp [powerUpCheckCollision, ← h]
  · intro h
    simp [powerUpCheckCollision, h]
  · intro h
    simp [powerUpCheckCollision, ← h]

/-- Bullet state: the fields of the `Bullet` class in `Bullet.ts` that the
collision logic reads (position, size 12×12 at construction, and the
player/enemy origin flag); speed, angle and colour are draw/update-only
and no claim mentions them. -/
structure Bullet where
  x : ℚ
  y : ℚ
  width : ℚ
  height : ℚ
  isEnemyBullet : Bool
deriving DecidableEq

/-- Embedding of `checkBulletCollision` (`Game.tsx` 1744-1753): AABB
overlap with the symmetric `collisionMargin = 5` added to all four
edges of both bullets. -/
def checkBulletCollision (b1 b2 : Bullet) : Bool :=
  decide (b1.x - 5 < b2.x + b2.width + 5) &&
  decide (b1.x + b1.width + 5 > b2.x - 5) &&
  decide (b1.y - 5 < b2.y + b2.height + 5) &&
  decide (b1.y + b1.height + 5 > b2.y - 5)

/-- Downward scan of `for (let enemyBulletIndex = bullets.length - 1;
enemyBulletIndex >= 0; enemyBulletIndex--)` (`Game.tsx` 1048-1054): the
largest index holding an enemy bullet that collides with the player
bullet `pb` (the loop body also re-checks `!playerBullet.isEnemyBullet`,
which `resolveBulletBullet` establishes before scanning). -/
def findEnemyBulletHitFrom (bullets : List Bullet) (pb : Bullet) : ℕ → Option ℕ
  | 0 => none
  | i + 1 =>
      match bullets[i]? with
      | some b =>
          if b.isEnemyBullet && checkBulletCollision pb b then some i
          else findEnemyBulletHitFrom bullets pb i
      | none => findEnemyBulletHitFrom bullets pb i

/-- Embedding of the bullet-vs-bullet resolution for the player bullet at
index `pIdx` (`Game.tsx` 1046-1086): on the first collision found by the
downward scan the code runs `bullets.splice(enemyBulletIndex, 1);
bullets.splice(playerBulletIndex, 1);` — two `eraseIdx` calls with the
ORIGINAL indices, exactly as in the source — and adds 10 to the score;
enemies are never touched on this path.  Returns the surviving bullet
list and the score bonus. -/
def resolveBulletBullet (bullets : List Bullet) (pIdx : ℕ) : List Bullet × ℕ :=
  match bullets[pIdx]? with
  | none => (bullets, 0)
  | some pb =>
      if pb.isEnemyBullet then (bullets, 0)
      else
        match findEnemyBulletHitFrom bullets pb bullets.length with
        | some e => ((bullets.eraseIdx e).eraseIdx pIdx, 10)
        | none => (bullets, 0)

/-- C6 evaluation at the failing input: with the colliding enemy bullet
stored BEFORE the player bullet (`bullets = [enemyBullet, playerBullet]`,
player bullet index 1), the code removes the enemy bullet and then
splices the stale index 1 — which after the first removal no longer
points at the player bullet — so the player bullet SURVIVES the frame
(first conjunct), the score bonus is still granted, and when a third
bullet follows the player bullet it is the one wrongly removed (second
conjunct).  With the enemy bullet stored after the player bullet the
intended behaviour — both bullets removed — occurs (third conjunct). -/
theorem c6_bullet_bullet_splice_eval :
    resolveBulletBullet
        [⟨100, 100, 12, 12, true⟩, ⟨100, 100, 12, 12, false⟩] 1
      = ([⟨100, 100, 12, 12, false⟩], 10)
    ∧ resolveBulletBullet
        [⟨100, 100, 12, 12, true⟩, ⟨100, 100, 12, 12, false⟩, ⟨500, 500, 12, 12, false⟩] 1
      = ([⟨100, 100, 12, 12, false⟩], 10)
    ∧ resolveBulletBullet
        [⟨100, 100, 12, 12, false⟩, ⟨100, 100, 12, 12, true⟩] 0
      = ([], 10) := by
  have hcol : checkBulletCollision ⟨100, 100, 12, 12, false⟩ ⟨100, 100, 12, 12, true⟩
      = true := by
    norm_num [checkBulletCollision]
  refine ⟨?_, ?_, ?_⟩
  · simp [resolveBulletBullet, findEnemyBulletHitFrom, hcol, List.eraseIdx]
  · simp [resolveBulletBullet, findEnemyBulletHitFrom, hcol, List.eraseIdx]
  · simp [resolveBulletBullet, findEnemyBulletHitFrom, hcol, List.eraseIdx]

/-- C5 witness: the amended theorem applied to concrete rectangles, with
the edge-touch hypothesis discharged at `x + width = 1 = other.x`. -/
theorem c5_collision_amended_witness :
    bulletCheckCollision ⟨0, 0, 1, 1⟩ ⟨5, 5, 1, 1⟩
      = bulletCheckCollision ⟨5, 5, 1, 1⟩ ⟨0, 0, 1, 1⟩
    ∧ bulletCheckCollision ⟨0, 0, 1, 1⟩ ⟨1, 0, 1, 1⟩ = false :=
  ⟨(c5_collision_amended ⟨0, 0, 1, 1⟩ ⟨5, 5, 1, 1⟩ ⟨0, 0, 1, 1⟩ ⟨0, 0, 1, 1⟩).1,
   (c5_collision_amended ⟨0, 0, 1, 1⟩ ⟨1, 0, 1, 1⟩ ⟨0, 0, 1, 1⟩ ⟨0, 0, 1, 1⟩).2.1
     (by norm_num)⟩

/-- Power-up variants, from the `PowerUpType` enum in `PowerUp.ts`
(lines 581-586). -/
inductive PowerUpType
  | shield
  | spreadShot
  | speed
  | health
deriving DecidableEq

/-- Player state, the fields of the `Player` class in `Player.ts` that
`activatePowerUp`, `update` and the collision logic touch (images and
draw-only fields omitted). -/
structure Player where
  x : ℚ
  y : ℚ
  width : ℚ
  height : ℚ
  speed : ℚ
  baseSpeed : ℚ
  hasShield : Bool
  hasSpreadShot : Bool
  invulnerable : Bool
  shieldTimer : ℚ
  spreadShotTimer : ℚ
  speedTimer : ℚ
  invulnerableTimer : ℚ
  fireRate : ℚ
deriving DecidableEq

/-- Embedding of `Player.activatePowerUp` (`Player.ts` 381-402): shield,
spread-shot and speed set their flag/value and a 5000 ms expiry from
`now`; the HEALTH case is an empty switch arm whose comment reads
"Health is handled by the game component" — it changes nothing. -/
def Player.activatePowerUp (p : Player) (t : PowerUpType) (now : ℚ) : Player :=
  match t with
  | PowerUpType.shield => { p with hasShield := true, shieldTimer := now + 5000 }
  | PowerUpType.spreadShot => { p with hasSpreadShot := true, spreadShotTimer := now + 5000 }
  | PowerUpType.speed => { p with speed := p.baseSpeed * (3 / 2), speedTimer := now + 5000 }
  | PowerUpType.health => p

/-- The state touched by the power-up collection branch of the game loop:
the player, the power-up list (as a count), the particle list (as a
count), and the `gameState` score/health fields. -/
structure PickupState where
  player : Player
  powerUpCount : ℕ
  particleCount : ℕ
  health : ℤ
  score : ℤ
deriving DecidableEq

/-- Embedding of the power-up collection branch of the game loop
(`Game.tsx` 967-971): on collision the code calls
`player.activatePowerUp(powerUp.type)`, splices the power-up out, and
`createExplosion` pushes 10 particles; it never touches
`gameState.health` or `gameState.score`. -/
def collectPowerUp (s : PickupState) (t : PowerUpType) (now : ℚ) : PickupState :=
  { s with
    player := s.player.activatePowerUp t now,
    powerUpCount := s.powerUpCount - 1,
    particleCount := s.particleCount + 10 }

/-- C10: collecting a HEALTH power-up never restores health —
`activatePowerUp HEALTH` returns the player unchanged, and the game
loop's collection branch leaves `gameState.health` (and score) unchanged
for every power-up type; for HEALTH its only effects are removing the
power-up and spawning the 10 explosion particles. -/
theorem c10_health_powerup_no_heal (p : Player) (s : PickupState) (t : PowerUpType)
    (now : ℚ) :
    p.activatePowerUp PowerUpType.health now = p
    ∧ (collectPowerUp s t now).health = s.health
    ∧ (collectPowerUp s t now).score = s.score
    ∧ (collectPowerUp s PowerUpType.health now).player = s.player
    ∧ (collectPowerUp s PowerUpType.health now).powerUpCount = s.powerUpCount - 1
    ∧ (collectPowerUp s PowerUpType.health now).particleCount = s.particleCount + 10 := by
  refine ⟨rfl, rfl, rfl, rfl, rfl, rfl⟩

/-- The `gameState` and player fields that the enemy-bullet-vs-player
branch of the game loop reads and writes. -/
structure LoopState where
  score : ℤ
  health : ℤ
  isGameOver : Bool
  isPaused : Bool
  playerInvulnerable : Bool
  playerHasShield : Bool
deriving DecidableEq

/-- Embedding of the enemy-bullet-vs-player branch (`Game.tsx`
1005-1042): the hit only registers when the player is neither
invulnerable nor shielded and the bullet collides; the code then makes
the player invulnerable and computes `newHealth = health - 1`; if
`newHealth <= 0` it sets `health - 1` and `isGameOver := true` in the
same update, otherwise it sets `health - 1` and
`isGameOver := (prev.health <= 1)`. -/
def enemyBulletHitPlayer (s : LoopState) (collides : Bool) : LoopState :=
  if !s.playerInvulnerable && !s.playerHasShield && collides then
    let newHealth := s.health - 1
    if newHealth ≤ 0 then
      { s with health := s.health - 1, isGameOver := true, playerInvulnerable := true }
    else
      { s with health := s.health - 1, isGameOver := decide (s.health ≤ 1),
               playerInvulnerable := true }
  else s

/-- The guard structure at the top of `gameLoop` (`Game.tsx` 808-826):
when the game is paused, or game over, the loop returns before any
score, spawn or level-advance logic runs; otherwise the frame body
executes. -/
def gameLoopGuard (frameBody : LoopState → LoopState) (s : LoopState) : LoopState :=
  if s.isPaused then s
  else if s.isGameOver then s
  else frameBody s

/-- C8 amended: a hit at health 1 (player neither invulnerable nor
shielded) yields health 0 and `isGameOver = true` in the same update,
and from the NEXT loop invocation on the game loop halts on
`isGameOver`: the guard returns the state unchanged, so no in-loop
score, spawn or level-advance logic runs in later frames.  (Within the
frame of the lethal hit itself the bullets `forEach` keeps running —
see the counterexample.) -/
theorem c8_lethal_hit_game_over_amended (s : LoopState) (h1 : s.health = 1)
    (h2 : s.playerInvulnerable = false) (h3 : s.playerHasShield = false) :
    (enemyBulletHitPlayer s true).health = 0
    ∧ (enemyBulletHitPlayer s true).isGameOver = true
    ∧ ∀ (body : LoopState → LoopState) (t : LoopState),
        gameLoopGuard body { t with isGameOver := true } = { t with isGameOver := true } := by
  refine ⟨?_, ?_, ?_⟩
  · simp [enemyBulletHitPlayer, h1, h2, h3]
  · simp [enemyBulletHitPlayer, h1, h2, h3]
  · intro body t
    simp [gameLoopGuard]

/-- C8 witness. -/
theorem c8_lethal_hit_game_over_amended_witness :
    (enemyBulletHitPlayer ⟨0, 1, false, false, false, false⟩ true).health = 0
    ∧ (enemyBulletHitPlayer ⟨0, 1, false, false, false, false⟩ true).isGameOver = true :=
  ⟨(c8_lethal_hit_game_over_amended ⟨0, 1, false, false, false, false⟩ rfl rfl rfl).1,
   (c8_lethal_hit_game_over_amended ⟨0, 1, false, false, false, false⟩ rfl rfl rfl).2.1⟩

def Bullet.toRect (b : Bullet) : Rect :=
  ⟨b.x, b.y, b.width, b.height⟩

def Enemy.toRect (e : Enemy) : Rect :=
  ⟨e.x, e.y, e.width, e.height⟩

/-- The mutable state read and written by the bullets phase of one
`gameLoop` frame (`Game.tsx` 994-1126): the bullets and enemies arrays,
the `gameState` score/health/game-over fields, the player status flags,
and the particle / explosion / power-up collections as counts.
`dropRolls` supplies the `Math.random()` draws of `Enemy.dropPowerUp`,
one per destroyed enemy. -/
structure FrameState where
  bullets : List Bullet
  enemies : List Enemy
  score : ℤ
  health : ℤ
  isGameOver : Bool
  playerInvulnerable : Bool
  playerHasShield : Bool
  particles : ℕ
  explosions : ℕ
  powerUps : ℕ
  dropRolls : List ℚ

/-- Embedding of `Enemy.dropPowerUp`'s roll (`Enemy.ts` 572-578):
`Math.random() > dropPowerUpChance` yields no drop, otherwise a
power-up drops; consumes one draw from the stream. -/
def dropPowerUpRoll (rolls : List ℚ) (chance : ℚ) : Bool × List ℚ :=
  match rolls with
  | [] => (false, [])
  | r :: rest => (decide (r ≤ chance), rest)

/-- Embedding of the player-bullet-vs-enemies scan (`Game.tsx`
1088-1124): `for (let i = enemiesRef.current.length - 1; i >= 0; i--)`.
On each collision the code splices the player bullet's (original) index
out of `bullets` and spawns 10 explosion particles; if `enemy.hit()`
destroys the enemy it spawns the GIF explosion, rolls the power-up
drop, splices the enemy and awards +100, then `break`s; if the enemy
survives, the loop continues with the hit enemy written back. -/
def enemyScan (pb : Bullet) (k : ℕ) (s : FrameState) : ℕ → FrameState
  | 0 => s
  | j + 1 =>
      match s.enemies[j]? with
      | none => enemyScan pb k s j
      | some en =>
          if bulletCheckCollision pb.toRect en.toRect then
            let s1 := { s with bullets := s.bullets.eraseIdx k,
                               particles := s.particles + 10 }
            let hit := en.hit
            if hit.2 then
              let roll := dropPowerUpRoll s1.dropRolls hit.1.dropPowerUpChance
              { s1 with
                explosions := s1.explosions + 1,
                powerUps := s1.powerUps + (if roll.1 then 1 else 0),
                dropRolls := roll.2,
                enemies := s1.enemies.eraseIdx j,
                score := s1.score + 100 }
            else
              enemyScan pb k { s1 with enemies := s1.enemies.set j hit.1 } j
          else enemyScan pb k s j

/-- Embedding of the body of the bullets `forEach` (`Game.tsx`
995-1126) for the bullet at (original) index `k`, from the off-screen
check (line 1000) onward; the preceding `playerBullet.update()` motion
(lines 996-997) only advances the bullet's position, so the positions
stored in the state are the post-update ones.  Order, as in the source:
off-screen removal; enemy bullet vs player (only when neither
invulnerable nor shielded), with the lethal `newHealth <= 0` branch
setting `isGameOver` in the same update; player bullet vs enemy
bullets (the double-splice of `resolveBulletBullet`, inlined); player
bullet vs enemies. -/
def bulletBody (player : Rect) (k : ℕ) (s : FrameState) : FrameState :=
  match s.bullets[k]? with
  | none => s
  | some pb =>
      if pb.y < 0 ∨ 600 < pb.y then { s with bullets := s.bullets.eraseIdx k }
      else if pb.isEnemyBullet then
        if !s.playerInvulnerable && !s.playerHasShield
            && bulletCheckCollision pb.toRect player then
          let s1 : FrameState := { s with bullets := s.bullets.eraseIdx k,
                                          particles := s.particles + 10,
                                          playerInvulnerable := true }
          if s1.health - 1 ≤ 0 then
            { s1 with explosions := s1.explosions + 1, health := s1.health - 1,
                      isGameOver := true }
          else
            { s1 with health := s1.health - 1, isGameOver := decide (s1.health ≤ 1) }
        else s
      else
        match findEnemyBulletHitFrom s.bullets pb s.bullets.length with
        | some e =>
            { s with particles := s.particles + 15,
                     bullets := (s.bullets.eraseIdx e).eraseIdx k,
                     score := s.score + 10 }
        | none => enemyScan pb k s s.enemies.length

/-- JavaScript `Array.prototype.forEach` over the mutating bullets
array: the iteration bound is the array length captured BEFORE the loop
(the fuel), each step visits the CURRENT element at index `k` when one
still exists (indices past the shrunk length are skipped), and in-place
splices shift later elements down. -/
def runForEach (body : ℕ → FrameState → FrameState) : ℕ → ℕ → FrameState → FrameState
  | 0, _, s => s
  | fuel + 1, k, s =>
      runForEach body fuel (k + 1) (if k < s.bullets.length then body k s else s)

/-- The bullets phase of one frame (`bullets.forEach(...)`,
`Game.tsx` 995). -/
def processBullets (player : Rect) (s : FrameState) : FrameState :=
  runForEach (bulletBody player) s.bullets.length 0 s

/-- C8 counterexample: the lethal hit does NOT stop the rest of the
frame.  Bullets `[enemyBullet(410,560), farPlayerBullet(700,300),
playerBullet(110,110)]` with the player at (400,550,50,50), one basic
enemy at (100,100), and health 1: the enemy bullet at index 0 is
processed first and kills the player (`health = 0`,
`isGameOver = true`), but the `forEach` continues — the player bullet
(visited at index 1 after the splice shift) still destroys the enemy
and awards +100 score AFTER the lethal hit, in the same update,
refuting "no further score, spawn, or level-advance logic executes
afterward". -/
theorem c8_score_after_lethal_hit_counterexample :
    (processBullets ⟨400, 550, 50, 50⟩
        { bullets := [⟨410, 560, 12, 12, true⟩, ⟨700, 300, 12, 12, false⟩,
                      ⟨110, 110, 12, 12, false⟩],
          enemies := [mkEnemy 100 200 EnemyType.basic],
          score := 0, health := 1, isGameOver := false,
          playerInvulnerable := false, playerHasShield := false,
          particles := 0, explosions := 0, powerUps := 0,
          dropRolls := [1] }).health = 0
    ∧ (processBullets ⟨400, 550, 50, 50⟩
        { bullets := [⟨410, 560, 12, 12, true⟩, ⟨700, 300, 12, 12, false⟩,
                      ⟨110, 110, 12, 12, false⟩],
          enemies := [mkEnemy 100 200 EnemyType.basic],
          score := 0, health := 1, isGameOver := false,
          playerInvulnerable := false, playerHasShield := false,
          particles := 0, explosions := 0, powerUps := 0,
          dropRolls := [1] }).isGameOver = true
    ∧ (processBullets ⟨400, 550, 50, 50⟩
        { bullets := [⟨410, 560, 12, 12, true⟩, ⟨700, 300, 12, 12, false⟩,
                      ⟨110, 110, 12, 12, false⟩],
          enemies := [mkEnemy 100 200 EnemyType.basic],
          score := 0, health := 1, isGameOver := false,
          playerInvulnerable := false, playerHasShield := false,
          particles := 0, explosions := 0, powerUps := 0,
          dropRolls := [1] }).score = 100 := by
  have h1 : bulletCheckCollision ⟨410, 560, 12, 12⟩ ⟨400, 550, 50, 50⟩ = true := by
    norm_num [bulletCheckCollision]
  have h2 : bulletCheckCollision ⟨110, 110, 12, 12⟩ ⟨100, 100, 40, 40⟩ = true := by
    norm_num [bulletCheckCollision]
  have h3 : EnemyType.basic ≠ EnemyType.tank := fun h => nomatch h
  refine ⟨?_, ?_, ?_⟩ <;>
    norm_num [processBullets, runForEach, bulletBody, enemyScan, findEnemyBulletHitFrom,
      dropPowerUpRoll, Enemy.hit, mkEnemy, Bullet.toRect, Enemy.toRect, h1, h2, h3,
      List.eraseIdx]

/-- The per-session state of the `Game` component that the level
progression machinery reads and writes.  Live, ref-backed values
(`gameJustStartedRef`, `enemiesRef`, `currentWaveRef`,
`waveTimeoutRef`/`levelProgressTimeoutRef`/`gameOverTimeoutRef` as
armed-or-not booleans, `difficultyConfigRef`) and the `gameState` fields
are stored together; the untracked anonymous timers that the source
never keeps a handle to — the last-wave settle timer armed inside
`spawnEnemyWave` (whose cleanup closure is discarded because
`spawnEnemyWave` is not an effect) and the 2.5-second level-advance
sequence armed inside `handleLevelComplete` — are modelled as pending
counts `settleTimers` and `advanceTimers`.  The bullet, power-up,
particle and explosion collections are local variables of the main
effect, modelled as counts.  `savedLevel` models the
`asteroidGameLevel` localStorage entry. -/
structure SessionState where
  score : ℤ
  health : ℤ
  level : ℕ
  victory : Bool
  isPaused : Bool
  isGameOver : Bool
  showLevelText : Bool
  justStarted : Bool
  currentWave : ℕ
  enemies : List Enemy
  bullets : ℕ
  powerUps : ℕ
  particles : ℕ
  explosions : ℕ
  cfg : DifficultyConfig
  waveTimeout : Bool
  levelProgressTimeout : Bool
  gameOverTimeout : Bool
  settleTimers : ℕ
  advanceTimers : ℕ
  savedLevel : Option ℕ

/-- Embedding of the synchronous body of `handleLevelComplete`
(`Game.tsx` 1381-1428).  The function is created by `useCallback` with
an EMPTY dependency array, so its closure captures the `gameState` of
the initial render; the victory flag it reads in its duplicate-call
guard is that captured value, passed here as `capturedVictory` — in the
running program it is the initial render's `false`, never the live
victory field.  The `gameJustStartedRef` guard reads the live ref.  On
passing both guards the code saves progress, clears the two tracked
timers, shows the level text, sets `level := nextLevel` and
`victory := true`, and arms the (untracked) 2.5-second advance
sequence. -/
def handleLevelComplete (capturedVictory : Bool) (s : SessionState) (nextLevel : ℕ) :
    SessionState :=
  if s.justStarted then s
  else if capturedVictory then s
  else
    { s with
      savedLevel := some nextLevel,
      levelProgressTimeout := false,
      waveTimeout := false,
      showLevelText := true,
      level := nextLevel,
      victory := true,
      advanceTimers := s.advanceTimers + 1 }

/-- Embedding of `checkForLevelCompletion` (`Game.tsx` 845-941), the
per-frame completion check inside `gameLoop`.  The `gameState` reads in
its conditions come from the game-loop closure created when the main
effect last ran, passed as the `snap*` parameters; ref reads
(`gameJustStartedRef`, `enemiesRef`, `currentWaveRef`,
`waveTimeoutRef`, `levelProgressTimeoutRef`, `difficultyConfigRef`) are
live fields of `s`.  The third branch arms the 1-second force-advance
timer by setting `levelProgressTimeout`. -/
def checkForLevelCompletion (capturedVictory snapVictory snapPaused snapGameOver : Bool)
    (snapLevel : ℕ) (s : SessionState) : SessionState :=
  if s.justStarted then s
  else
    let isLastWaveComplete : Bool := decide (s.cfg.maxWaves - 1 ≤ s.currentWave)
    if s.enemies.isEmpty && !snapPaused && !snapGameOver && !snapVictory
        && !s.waveTimeout && isLastWaveComplete && !s.justStarted then
      handleLevelComplete capturedVictory s (snapLevel + 1)
    else if s.enemies.isEmpty && !snapPaused && !snapGameOver && !snapVictory
        && !s.justStarted then
      if isLastWaveComplete then
        if !snapVictory then handleLevelComplete capturedVictory s (snapLevel + 1) else s
      else if s.waveTimeout then s
      else if !s.levelProgressTimeout && !s.justStarted then
        { s with levelProgressTimeout := true }
      else s
    else s

/-- Embedding of the 1-second force-advance timer callback armed by
`checkForLevelCompletion` (`Game.tsx` 919-938): it re-validates
`!victory && !justStarted` (victory from the stale loop snapshot, the
ref live), possibly calls `handleLevelComplete`, and always nulls the
`levelProgressTimeoutRef` handle at the end. -/
def levelProgressTimerFire (capturedVictory snapVictory : Bool) (snapLevel : ℕ)
    (s : SessionState) : SessionState :=
  let s1 := if !snapVictory && !s.justStarted
    then handleLevelComplete capturedVictory s (snapLevel + 1)
    else s
  { s1 with levelProgressTimeout := false }

/-- Embedding of one tick of the 500 ms observer interval
(`Game.tsx` 1479-1543): skip when paused / game over / victory / just
started (snapshot values from the observer effect's closure, ref live);
otherwise, with no enemies left and either the last wave reached or no
wave timeout armed, and no force-advance timer pending, run the
100 ms-delayed final re-validation and call `handleLevelComplete`.
The 100 ms delay is collapsed: both checks are evaluated on the same
modelled state, which is the delayed callback's re-read of the live
refs together with its closure's snapshot values. -/
def observerTick (capturedVictory snapVictory snapPaused snapGameOver : Bool)
    (snapLevel : ℕ) (s : SessionState) : SessionState :=
  if snapPaused || snapGameOver || snapVictory || s.justStarted then s
  else if s.enemies.isEmpty then
    let isLastWave : Bool := decide (s.cfg.maxWaves - 1 ≤ s.currentWave)
    let hasActiveWaveTimeout := s.waveTimeout
    if (isLastWave || !hasActiveWaveTimeout) && !snapVictory
        && !s.levelProgressTimeout && !s.justStarted then
      if s.enemies.isEmpty && !snapVictory && !snapPaused && !snapGameOver
          && !s.justStarted then
        handleLevelComplete capturedVictory s (snapLevel + 1)
      else s
    else s
  else s

/-- Embedding of the last-wave settle timer callback armed by
`spawnEnemyWave` after spawning the final wave (`Game.tsx` 412-417):
after 2 seconds, if no enemies remain and the (stale, callback-creation)
victory snapshot is false, call `handleLevelComplete`; one pending
settle timer is consumed. -/
def settleTimerFire (capturedVictory snapVictory : Bool) (snapLevel : ℕ)
    (s : SessionState) : SessionState :=
  let s1 := if s.enemies.isEmpty && !snapVictory
    then handleLevelComplete capturedVictory s (snapLevel + 1)
    else s
  { s1 with settleTimers := s1.settleTimers - 1 }

/-- Embedding of the `waveNumber >= config.maxWaves` early branch of
`spawnEnemyWave` (`Game.tsx` 257-267): beyond the last wave, with no
enemies and the (stale) victory snapshot false and the live
just-started ref false, force level completion; otherwise return
without spawning. -/
def spawnEnemyWaveMaxGuard (capturedVictory snapVictory : Bool) (s : SessionState)
    (level wave : ℕ) : SessionState :=
  if s.cfg.maxWaves ≤ wave then
    if s.enemies.isEmpty && !snapVictory && !s.justStarted then
      handleLevelComplete capturedVictory s (level + 1)
    else s
  else s

/-- C2: while the just-started grace window is active
(`gameJustStartedRef` true), no completion transition fires: every path
into `handleLevelComplete` and every completion check — the in-loop
check, the force-advance timer, the observer poll, the last-wave settle
timer, and the beyond-max-waves guard — leaves level, victory, the wave
counter and the enemy collection unchanged (all but the timer callbacks
leave the whole state unchanged; the timer callbacks only null their
own timer handle). -/
theorem c2_grace_window_blocks_completion
    (capturedVictory snapVictory snapPaused snapGameOver : Bool) (snapLevel lvl wave : ℕ)
    (s : SessionState) (h : s.justStarted = true) :
    handleLevelComplete capturedVictory s lvl = s
    ∧ checkForLevelCompletion capturedVictory snapVictory snapPaused snapGameOver
        snapLevel s = s
    ∧ observerTick capturedVictory snapVictory snapPaused snapGameOver snapLevel s = s
    ∧ spawnEnemyWaveMaxGuard capturedVictory snapVictory s lvl wave = s
    ∧ (levelProgressTimerFire capturedVictory snapVictory snapLevel s).level = s.level
    ∧ (levelProgressTimerFire capturedVictory snapVictory snapLevel s).victory = s.victory
    ∧ (levelProgressTimerFire capturedVictory snapVictory snapLevel s).currentWave
        = s.currentWave
    ∧ (levelProgressTimerFire capturedVictory snapVictory snapLevel s).enemies = s.enemies
    ∧ (settleTimerFire capturedVictory snapVictory snapLevel s).level = s.level
    ∧ (settleTimerFire capturedVictory snapVictory snapLevel s).victory = s.victory
    ∧ (settleTimerFire capturedVictory snapVictory snapLevel s).currentWave = s.currentWave
    ∧ (settleTimerFire capturedVictory snapVictory snapLevel s).enemies = s.enemies := by
  have hh : handleLevelComplete capturedVictory s (snapLevel + 1) = s := by
    simp [handleLevelComplete, h]
  refine ⟨by simp [handleLevelComplete, h], by simp [checkForLevelCompletion, h],
    by simp [observerTick, h], ?_, ?_, ?_, ?_, ?_, ?_, ?_, ?_, ?_⟩
  · unfold spawnEnemyWaveMaxGuard
    split
    · split
      · simp [handleLevelComplete, h]
      · rfl
    · rfl
  all_goals simp [levelProgressTimerFire, settleTimerFire, h, hh]

/-- C2 witness. -/
theorem c2_grace_window_blocks_completion_witness :
    handleLevelComplete false
        { score := 0, health := 3, level := 1, victory := false, isPaused := false,
          isGameOver := false, showLevelText := false, justStarted := true,
          currentWave := 0, enemies := [], bullets := 0, powerUps := 0, particles := 0,
          explosions := 0, cfg := getDifficultyConfig 1, waveTimeout := false,
          levelProgressTimeout := false, gameOverTimeout := false, settleTimers := 0,
          advanceTimers := 0, savedLevel := none } 2
      = { score := 0, health := 3, level := 1, victory := false, isPaused := false,
          isGameOver := false, showLevelText := false, justStarted := true,
          currentWave := 0, enemies := [], bullets := 0, powerUps := 0, particles := 0,
          explosions := 0, cfg := getDifficultyConfig 1, waveTimeout := false,
          levelProgressTimeout := false, gameOverTimeout := false, settleTimers := 0,
          advanceTimers := 0, savedLevel := none } :=
  (c2_grace_window_blocks_completion false false false false 1 2 0 _ rfl).1

/-- A reachable mid-game state used to evaluate the progression
functions: level 1 fully cleared (no enemies, last wave spawned, no
timers pending), outside the grace window, no victory in progress. -/
def clearedLevelState : SessionState where
  score := 500
  health := 3
  level := 1
  victory := false
  isPaused := false
  isGameOver := false
  showLevelText := false
  justStarted := false
  currentWave := 0
  enemies := []
  bullets := 0
  powerUps := 0
  particles := 0
  explosions := 0
  cfg := getDifficultyConfig 1
  waveTimeout := false
  levelProgressTimeout := false
  gameOverTimeout := false
  settleTimers := 0
  advanceTimers := 0
  savedLevel := none

/-- C1 evaluation at the failing input: `handleLevelComplete` is called
twice in succession for the same transition (as happens when two of the
redundant triggers fire in the window before React commits the first
update).  After the first call the live victory flag is `true` (first
conjunct), yet the second call — whose guard reads the `useCallback`
closure's captured initial-render victory value `false` — is NOT a
no-op: it re-executes the completion effects and arms a second advance
sequence (second conjunct).  Had the guard read the live victory flag
the second call would have been the claimed no-op (third conjunct). -/
theorem c1_handleLevelComplete_stale_guard_eval :
    (handleLevelComplete false clearedLevelState 2).victory = true
    ∧ (handleLevelComplete false (handleLevelComplete false clearedLevelState 2) 2).advanceTimers
        = 2
    ∧ handleLevelComplete (handleLevelComplete false clearedLevelState 2).victory
        (handleLevelComplete false clearedLevelState 2) 2
      = handleLevelComplete false clearedLevelState 2 :=
  ⟨rfl, rfl, rfl⟩

/-- Embedding of the synchronous body of `startNewGame`
(`Game.tsx` 500-603): set the just-started flag, clear the saved level,
clear the three TRACKED timer refs (wave, level-progress, game-over),
clear the enemies array, reset the wave counter, reset the difficulty
config to level 1, reset the UI flags, and reset `gameState` to
score 0 / health 3 / level 1.  The untracked settle and advance timers
have no stored handle anywhere, so the function cannot clear them; the
bullet/power-up/particle/explosion collections are locals of the main
effect and are untouched here. -/
def startNewGame (s : SessionState) : SessionState :=
  { s with
    justStarted := true,
    savedLevel := none,
    waveTimeout := false,
    levelProgressTimeout := false,
    gameOverTimeout := false,
    enemies := [],
    currentWave := 0,
    cfg := getDifficultyConfig 1,
    showLevelText := false,
    score := 0,
    isGameOver := false,
    isPaused := false,
    health := 3,
    victory := false,
    level := 1 }

/-- Embedding of the start of the main effect body (`Game.tsx` 657-697),
which re-runs after `startNewGame` flips `isGameOver`/`level`: fresh
empty local `bullets`/`powerUps`/`particles`/`explosions` arrays are
created, `enemiesRef` is cleared again, and the just-started lock is
re-asserted. -/
def mainEffectInit (s : SessionState) : SessionState :=
  { s with
    bullets := 0,
    powerUps := 0,
    particles := 0,
    explosions := 0,
    enemies := [],
    justStarted := true }

/-- Every outstanding timer of the session is cancelled: the three
tracked refs are disarmed and no untracked settle or advance timer is
pending. -/
def noOutstandingTimers (s : SessionState) : Prop :=
  s.waveTimeout = false ∧ s.levelProgressTimeout = false ∧ s.gameOverTimeout = false
  ∧ s.settleTimers = 0 ∧ s.advanceTimers = 0

/-- C9 counterexample: starting a new game while a last-wave settle
timer is pending (armed by `spawnEnemyWave` after the final wave — its
handle is only captured in a discarded cleanup closure) does NOT cancel
every outstanding timer. -/
theorem c9_untracked_timer_counterexample :
    ¬ noOutstandingTimers (startNewGame { clearedLevelState with settleTimers := 1 }) := by
  intro h
  exact absurd h.2.2.2.1 (by simp [startNewGame])

/-- C9 amended: `startNewGame` always resets score to 0, health to 3,
level to 1, clears the enemy collection and the three tracked timers
(wave spawn, level progress, game over), and the bullet / power-up /
particle / explosion collections are re-created empty when the main
effect re-arms the loop; but the untracked last-wave settle timers and
in-flight level-advance sequences are left pending. -/
theorem c9_startNewGame_reset_amended (s : SessionState) :
    (startNewGame s).score = 0
    ∧ (startNewGame s).health = 3
    ∧ (startNewGame s).level = 1
    ∧ (startNewGame s).victory = false
    ∧ (startNewGame s).isGameOver = false
    ∧ (startNewGame s).enemies = []
    ∧ (startNewGame s).currentWave = 0
    ∧ (startNewGame s).waveTimeout = false
    ∧ (startNewGame s).levelProgressTimeout = false
    ∧ (startNewGame s).gameOverTimeout = false
    ∧ (startNewGame s).savedLevel = none
    ∧ (startNewGame s).settleTimers = s.settleTimers
    ∧ (startNewGame s).advanceTimers = s.advanceTimers
    ∧ (mainEffectInit (startNewGame s)).bullets = 0
    ∧ (mainEffectInit (startNewGame s)).powerUps = 0
    ∧ (mainEffectInit (startNewGame s)).particles = 0
    ∧ (mainEffectInit (startNewGame s)).explosions = 0
    ∧ (mainEffectInit (startNewGame s)).enemies = [] :=
  ⟨rfl, rfl, rfl, rfl, rfl, rfl, rfl, rfl, rfl, rfl, rfl, rfl, rfl, rfl, rfl, rfl, rfl, rfl⟩

/-- The formation layouts of `spawnEnemyWave` (`Game.tsx` 362-370). -/
inductive Formation
  | linear
  | vShape
  | arc
  | zigzag
  | diamond
  | random
deriving DecidableEq

def formationTypes : List Formation :=
  [Formation.linear, Formation.vShape, Formation.arc, Formation.zigzag,
   Formation.diamond, Formation.random]

/-- Level-gated subset of formations
(`formationTypes.slice(0, Math.min(length, 1 + floor(level / 2)))`,
`Game.tsx` 373). -/
def availableFormations (level : ℕ) : List Formation :=
  formationTypes.take (min formationTypes.length (1 + level / 2))

/-- The formation choice of `spawnEnemyWave` (`Game.tsx` 376-382): on
wave 0 of level 1 the formation is forced to linear for an easy start;
otherwise a uniformly random pick
`avail[Math.floor(rForm * avail.length)]` from the available subset
(`rForm` is the `Math.random()` draw; the `getD` default is never used
for `rForm` in `[0,1)`). -/
def chooseFormation (level wave : ℕ) (rForm : ℚ) : Formation :=
  let avail := availableFormations level
  let pick := avail.getD (Int.toNat ⌊rForm * (avail.length : ℚ)⌋) Formation.linear
  if wave = 0 then (if level = 1 then Formation.linear else pick) else pick

/-- One row of the diamond formation (`Game.tsx` 311-333). -/
def diamondRowPositions (enemyCount diamondSize startRow row : ℕ) : List (ℚ × ℚ) :=
  let rowWidth := if row < diamondSize then row + 1 else 2 * diamondSize - row - 1
  (List.range rowWidth).map fun i =>
    (((enemyCount : ℚ) / 2) + (((i : ℚ) - ((rowWidth : ℚ) - 1) / 2) * (3 / 2)),
     (startRow : ℚ) + (row : ℚ) * (8 / 10))

/-- The (col,row) pairs passed to `spawnEnemy` by `createFormation`
(`Game.tsx` 276-350), per formation.  `sinArc col count` abstracts the
transcendental `Math.sin((col / (count - 1)) * Math.PI) * 2` of the arc
formation (the only non-rational arithmetic in the spawner); `randPos`
supplies the two `Math.random()` draws per column of the random
formation.  The diamond's `diamondIndex < enemyCount` guard is the final
`take`. -/
def formationPositions (sinArc : ℕ → ℕ → ℚ) (f : Formation) (enemyCount startRow : ℕ)
    (randPos : ℕ → ℚ × ℚ) : List (ℚ × ℚ) :=
  match f with
  | Formation.linear =>
      (List.range enemyCount).map fun (col : ℕ) => ((col : ℚ), (startRow : ℚ))
  | Formation.vShape =>
      (List.range enemyCount).map fun (col : ℕ) =>
        ((col : ℚ), (startRow : ℚ) + |(col : ℚ) - (enemyCount : ℚ) / 2| * (7 / 10))
  | Formation.arc =>
      (List.range enemyCount).map fun (col : ℕ) =>
        ((col : ℚ), (startRow : ℚ) + sinArc col enemyCount)
  | Formation.zigzag =>
      (List.range enemyCount).map fun (col : ℕ) =>
        ((col : ℚ), (startRow : ℚ) + ((col % 2 : ℕ) : ℚ) * (3 / 2))
  | Formation.diamond =>
      let diamondSize := min 4 (enemyCount / 3)
      (((List.range (2 * diamondSize - 1)).map
          (diamondRowPositions enemyCount diamondSize startRow)).flatten).take enemyCount
  | Formation.random =>
      (List.range enemyCount).map fun (col : ℕ) =>
        (((randPos col).1 * (8 / 10) + 1 / 10) * ((enemyCount : ℚ) - 1),
         (startRow : ℚ) + (randPos col).2 * (3 / 2))

/-- The spawning path of `spawnEnemyWave` for `waveNumber < maxWaves`
(`Game.tsx` 252-424): the wave size is `baseEnemiesPerWave` (forced to 5
on wave 0 of level 1), `startRow = waveNumber`, a formation is chosen,
and one enemy per formation position is created by `spawnEnemy` with its
own type and dive draws (`randType i`, `randDive i`).  Returns the
chosen formation and the list of enemies appended to `enemiesRef`. -/
def spawnEnemyWaveSpawn (sinArc : ℕ → ℕ → ℚ) (level wave : ℕ) (cfg : DifficultyConfig)
    (rForm : ℚ) (randPos : ℕ → ℚ × ℚ) (randType randDive : ℕ → ℚ) :
    Formation × List Enemy :=
  let enemiesInThisWave := cfg.baseEnemiesPerWave
  let formationType := chooseFormation level wave rForm
  let adjustedEnemyCount := if wave = 0 ∧ level = 1 then 5 else enemiesInThisWave
  let positions := formationPositions sinArc formationType adjustedEnemyCount wave randPos
  let enemies := positions.enum.map fun p =>
    spawnEnemy cfg p.2.1 p.2.2 adjustedEnemyCount (randType p.1) (randDive p.1)
  (formationType, enemies)

theorem mkEnemy_type (x y : ℚ) (t : EnemyType) : (mkEnemy x y t).type = t := by
  cases t <;> rfl

theorem spawnEnemy_type (cfg : DifficultyConfig) (col row : ℚ) (tot : ℕ) (rT rD : ℚ) :
    (spawnEnemy cfg col row tot rT rD).type = chooseEnemyType cfg rT := by
  simp [spawnEnemy, mkEnemy_type]

/-- C7: `spawnEnemyWave(1, 0)` with the fresh level-1 difficulty config
spawns exactly 5 enemies, chooses the linear formation, and — because
the shooter, tank and fast probabilities are all 0 at level 1 — every
spawned enemy has type BASIC, for every outcome of the per-enemy random
type roll (`Math.random()` is non-negative). -/
theorem c7_level1_wave0_spawn (sinArc : ℕ → ℕ → ℚ) (rForm : ℚ) (randPos : ℕ → ℚ × ℚ)
    (randType randDive : ℕ → ℚ) (h : ∀ i, 0 ≤ randType i) :
    (spawnEnemyWaveSpawn sinArc 1 0 (getDifficultyConfig 1) rForm randPos
        randType randDive).1 = Formation.linear
    ∧ (spawnEnemyWaveSpawn sinArc 1 0 (getDifficultyConfig 1) rForm randPos
        randType randDive).2.length = 5
    ∧ ∀ e ∈ (spawnEnemyWaveSpawn sinArc 1 0 (getDifficultyConfig 1) rForm randPos
        randType randDive).2, e.type = EnemyType.basic := by
  have hs : (getDifficultyConfig 1).shooterProbability = 0 := by
    norm_num [getDifficultyConfig, min_def]
  have ht : (getDifficultyConfig 1).tankProbability = 0 := by
    norm_num [getDifficultyConfig, min_def]
  have hf : (getDifficultyConfig 1).fastProbability = 0 := by
    norm_num [getDifficultyConfig, min_def]
  have htype : ∀ r : ℚ, 0 ≤ r →
      chooseEnemyType (getDifficultyConfig 1) r = EnemyType.basic := by
    intro r hr
    have hnot : ¬ r < 0 := not_lt.mpr hr
    simp [chooseEnemyType, hs, ht, hf, hnot]
  refine ⟨rfl, rfl, ?_⟩
  · intro e he
    simp only [spawnEnemyWaveSpawn, chooseFormation, availableFormations,
      formationPositions, List.mem_map] at he
    obtain ⟨p, _, rfl⟩ := he
    rw [spawnEnemy_type]
    exact htype _ (h _)

/-- C7 witness. -/
theorem c7_level1_wave0_spawn_witness :
    (spawnEnemyWaveSpawn (fun _ _ => 0) 1 0 (getDifficultyConfig 1) 0 (fun _ => (0, 0))
        (fun _ => 0) (fun _ => 0)).1 = Formation.linear
    ∧ (spawnEnemyWaveSpawn (fun _ _ => 0) 1 0 (getDifficultyConfig 1) 0 (fun _ => (0, 0))
        (fun _ => 0) (fun _ => 0)).2.length = 5 :=
  ⟨(c7_level1_wave0_spawn (fun _ _ => 0) 0 (fun _ => (0, 0)) (fun _ => 0) (fun _ => 0)
      (fun _ => le_rfl)).1,
   (c7_level1_wave0_spawn (fun _ _ => 0) 0 (fun _ => (0, 0)) (fun _ => 0) (fun _ => 0)
      (fun _ => le_rfl)).2.1⟩

end HeartTrooper
